import Mathlib

/-
  Verification of the Compress-It media compression engine.

  The definitions below are a shallow embedding of the engine's core:
  the target-size video transcoding controller (startVideoCompression in
  the web renderer, the compress-video IPC handler in the desktop main
  process) and the format-adaptive image option resolver
  (getOutputFormat / getCompressionOptions in the server compression
  service).  JavaScript numbers are modelled with exact rational
  arithmetic; `Math.floor` becomes `Int.floor`.
-/

namespace CompressIt

/-! ## Video compression: bitrate estimation -/

/-- First-pass video bitrate estimate, in kbps.  Mirrors
`Math.max(100, Math.floor(targetSizeBytes * 8 / duration / 1000 - audioBitrate))`
from the renderer and the desktop compress-video handler. -/
def estimate (durationSeconds : ℚ) (targetBytes : ℕ) (audioBitrateKbps : ℚ) : ℤ :=
  max 100 ⌊(targetBytes : ℚ) * 8 / durationSeconds / 1000 - audioBitrateKbps⌋

/-- Second-pass video bitrate, in kbps.  Mirrors
`Math.max(50, Math.floor(videoBitrate * ratio * 0.9))` where
`ratio = targetSizeBytes / compressedBlob.size`. -/
def secondPassVideoBitrate (videoBitrate : ℤ) (targetBytes outBytes : ℕ) : ℤ :=
  max 50 ⌊(videoBitrate : ℚ) * ((targetBytes : ℚ) / (outBytes : ℚ)) * (9 / 10)⌋

/-- Constant audio bitrate budget of the controller (`const audioBitrate = 128`). -/
def audioBitrate : ℕ := 128

/-! ## Video compression: the convergence controller -/

inductive QualityPreset where
  | high
  | medium
  | low
deriving DecidableEq

inductive VideoFormat where
  | mp4
  | webm
deriving DecidableEq

/-- A video compression request as read from the UI controls. -/
structure VideoRequest where
  fileSize : ℕ
  targetSizeMB : ℕ
  duration : ℚ
  quality : QualityPreset
  format : VideoFormat

/-- `const targetSizeBytes = targetSizeMB * 1024 * 1024`. -/
def targetSizeBytes (r : VideoRequest) : ℕ :=
  r.targetSizeMB * 1024 * 1024

/-- The pre-check `fileSizeMB <= targetSizeMB` with
`fileSizeMB = file.size / (1024 * 1024)`: the request is served by the
original file and no transcoding happens. -/
def precheckSkips (r : VideoRequest) : Prop :=
  (r.fileSize : ℚ) / (1024 * 1024) ≤ (r.targetSizeMB : ℚ)

instance (r : VideoRequest) : Decidable (precheckSkips r) :=
  inferInstanceAs (Decidable (_ ≤ _))

/-- The tolerance check that triggers the second pass:
`compressedBlob.size > targetSizeBytes * 1.05`. -/
def overTolerance (r : VideoRequest) (outBytes : ℕ) : Prop :=
  (outBytes : ℚ) > (targetSizeBytes r : ℚ) * (105 / 100)

instance (r : VideoRequest) (outBytes : ℕ) : Decidable (overTolerance r outBytes) :=
  inferInstanceAs (Decidable (_ < _))

/-- Outcome of one run of the controller.  `skippedSuccess` is the
pre-check short-circuit (the original file stands in for the output);
`compressed n sz` means `n` transcoding attempts ran and the final
output has `sz` bytes. -/
inductive VideoOutcome where
  | skippedSuccess (originalSize : ℕ)
  | compressed (attempts : ℕ) (finalSize : ℕ)
deriving DecidableEq

/-- The convergence controller of `startVideoCompression`, with the two
transcode invocations abstracted by the sizes `out1` and `out2` their
outputs would have.  Control flow mirrors the source: pre-check, first
`ffmpeg.exec`, tolerance check, optional second `ffmpeg.exec`. -/
def startVideoCompression (r : VideoRequest) (out1 out2 : ℕ) : VideoOutcome :=
  if precheckSkips r then
    VideoOutcome.skippedSuccess r.fileSize
  else if overTolerance r out1 then
    VideoOutcome.compressed 2 out2
  else
    VideoOutcome.compressed 1 out1

/-- Number of transcoding attempts an outcome used. -/
def attemptsOf : VideoOutcome → ℕ
  | VideoOutcome.skippedSuccess _ => 0
  | VideoOutcome.compressed n _ => n

theorem precheckSkips_iff (r : VideoRequest) :
    precheckSkips r ↔ r.fileSize ≤ targetSizeBytes r := by
  unfold precheckSkips targetSizeBytes
  rw [div_le_iff₀ (by norm_num : (0 : ℚ) < 1024 * 1024)]
  rw [show (r.targetSizeMB : ℚ) * (1024 * 1024)
      = ((r.targetSizeMB * 1024 * 1024 : ℕ) : ℚ) by push_cast; ring]
  exact Nat.cast_le

/-! ## Video compression: FFmpeg argument lists -/

/-- First-pass FFmpeg arguments built by `startVideoCompression`, one
branch per output container. -/
def firstPassArgs (format : VideoFormat) (ext preset : String)
    (crf : ℕ) (videoBitrate : ℤ) : List String :=
  match format with
  | VideoFormat.mp4 =>
      ["-i", "input" ++ ext, "-c:v", "libx264", "-preset", preset,
       "-crf", toString crf, "-maxrate", toString videoBitrate ++ "k",
       "-bufsize", toString (videoBitrate * 2) ++ "k", "-c:a", "aac",
       "-b:a", toString audioBitrate ++ "k", "-movflags", "+faststart",
       "-y", "output.mp4"]
  | VideoFormat.webm =>
      ["-i", "input" ++ ext, "-c:v", "libvpx-vp9", "-crf", toString crf,
       "-b:v", toString videoBitrate ++ "k", "-c:a", "libopus",
       "-b:a", toString audioBitrate ++ "k", "-y", "output.webm"]

/-- Second-pass FFmpeg arguments built by `startVideoCompression` after
the tolerance check fails; note `-b:a` uses `Math.min(audioBitrate, 96)`. -/
def secondPassArgs (format : VideoFormat) (ext preset : String)
    (videoBitrate : ℤ) : List String :=
  match format with
  | VideoFormat.mp4 =>
      ["-i", "input" ++ ext, "-c:v", "libx264", "-preset", preset,
       "-b:v", toString videoBitrate ++ "k",
       "-maxrate", toString videoBitrate ++ "k",
       "-bufsize", toString (videoBitrate * 2) ++ "k", "-c:a", "aac",
       "-b:a", toString (min audioBitrate 96) ++ "k",
       "-movflags", "+faststart", "-y", "output.mp4"]
  | VideoFormat.webm =>
      ["-i", "input" ++ ext, "-c:v", "libvpx-vp9",
       "-b:v", toString videoBitrate ++ "k", "-c:a", "libopus",
       "-b:a", toString (min audioBitrate 96) ++ "k", "-y", "output.webm"]

/-! ## Image compression: format and option resolution -/

/-- The `mimeToFormat` lookup table of `getOutputFormat` in the server
compression service. -/
def mimeToFormat (mimetype : String) : Option String :=
  if mimetype = "image/jpeg" then some ("jpeg")
  else if mimetype = "image/png" then some ("png")
  else if mimetype = "image/gif" then some ("gif")
  else if mimetype = "image/webp" then some ("webp")
  else none

/-- `getOutputFormat(mimetype, outputFormat)`: an explicitly requested,
non-empty format other than "original" is returned as-is; otherwise the
mimetype is looked up, defaulting to "jpeg". -/
def getOutputFormat (mimetype : String) (outputFormat : Option String) : String :=
  match outputFormat with
  | some f =>
      if f ≠ "" ∧ f ≠ "original" then f
      else Option.getD (mimeToFormat mimetype) ("jpeg")
  | none => Option.getD (mimeToFormat mimetype) ("jpeg")

/-- The per-format Sharp option sets produced by `getCompressionOptions`. -/
inductive CompressionOptions where
  | jpegOpts (quality : ℕ) (mozjpeg : Bool) (chromaSubsampling : String)
  | pngOpts (compressionLevel : ℕ) (palette : Bool) (quality effort colors : ℕ)
  | webpOpts (quality effort : ℕ) (smartSubsample nearLossless : Bool)
  | gifOpts (colors effort : ℕ)
  | defaultOpts (quality : ℕ)
deriving DecidableEq

/-- `getCompressionOptions(format, quality)` from the server compression
service, including the silent `default: return { quality }` branch. -/
def getCompressionOptions (format : String) (quality : ℕ) : CompressionOptions :=
  if format = "jpeg" then
    CompressionOptions.jpegOpts quality true
      (if quality > 90 then "4:4:4" else "4:2:0")
  else if format = "png" then
    CompressionOptions.pngOpts 9 (quality < 100) quality 10
      (max 16 (256 * quality / 100))
  else if format = "webp" then
    CompressionOptions.webpOpts quality 6 true (quality > 95)
  else if format = "gif" then
    CompressionOptions.gifOpts (max 16 (256 * quality / 100)) 10
  else
    CompressionOptions.defaultOpts quality

/-- Palette size carried by an option set, when the format has one. -/
def paletteSize : CompressionOptions → Option ℕ
  | CompressionOptions.pngOpts _ _ _ _ colors => some colors
  | CompressionOptions.gifOpts colors _ => some colors
  | _ => none

/-! ## Desktop video result classification and the cancellation race -/

/-- Substring test, standing in for JavaScript `String.includes`. -/
def containsSubstr (s pat : String) : Bool :=
  s.toList.tails.any (fun t => pat.toList.isPrefixOf t)

/-- Result object resolved by the desktop `compress-video` handler. -/
inductive DesktopVideoResult where
  | success (originalSize compressedSize : ℕ)
  | failed (message : String)
  | cancelled
deriving DecidableEq

/-- The `.on("error")` classifier of the compress-video handler:
`err.message.includes("SIGKILL") || err.message.includes("killed")`
resolves `{cancelled: true}`, anything else `{error: message}`. -/
def videoErrorResult (message : String) : DesktopVideoResult :=
  if containsSubstr message ("SIGKILL") || containsSubstr message ("killed") then
    DesktopVideoResult.cancelled
  else
    DesktopVideoResult.failed message

/-- State of one compress-video request: whether the FFmpeg command is
still registered in `activeProcesses`, and the (first-wins) resolution
of the handler's promise. -/
structure ProcessState where
  active : Bool
  resolved : Option DesktopVideoResult
deriving DecidableEq

/-- Events that can reach a compress-video request: the FFmpeg `end`
event, an FFmpeg `error` event, or a `cancel-video` IPC call. -/
inductive ProcessEvent where
  | procEnd (outputSize : ℕ)
  | procError (message : String)
  | cancelRequest

/-- A JavaScript promise resolves once: later resolutions are no-ops. -/
def resolveOnce (st : Option DesktopVideoResult) (r : DesktopVideoResult) :
    Option DesktopVideoResult :=
  match st with
  | some r0 => some r0
  | none => some r

/-- One event step of the compress-video handler.  `end` deletes the
process from `activeProcesses` and resolves success; `error` does the
same with the classified error; `cancel-video` kills and deregisters the
process when it is still active and is a no-op otherwise. -/
def stepProcess (originalSize : ℕ) (st : ProcessState) :
    ProcessEvent → ProcessState
  | ProcessEvent.procEnd sz =>
      { active := false,
        resolved := resolveOnce st.resolved (DesktopVideoResult.success originalSize sz) }
  | ProcessEvent.procError msg =>
      { active := false,
        resolved := resolveOnce st.resolved (videoErrorResult msg) }
  | ProcessEvent.cancelRequest =>
      if st.active then { st with active := false } else st

/-- Run a compress-video request against a schedule of events, starting
with a live process and an unresolved promise. -/
def runProcess (originalSize : ℕ) (events : List ProcessEvent) : ProcessState :=
  events.foldl (stepProcess originalSize) { active := true, resolved := none }

/-! ## Claims about the convergence controller -/

/-- Claim C1: every video request performs at most 2 transcoding
attempts, and when the first attempt ran, a second attempt occurs if and
only if the first output exceeds targetBytes times 1.05; at most one
attempt occurs otherwise. -/
theorem convergence_bound (r : VideoRequest) (out1 out2 : ℕ) :
    attemptsOf (startVideoCompression r out1 out2) ≤ 2
    ∧ (¬ precheckSkips r →
        (attemptsOf (startVideoCompression r out1 out2) = 2 ↔ overTolerance r out1)) := by
  unfold startVideoCompression
  split_ifs with h1 h2
  · exact ⟨by simp [attemptsOf], fun h => absurd h1 h⟩
  · exact ⟨by simp [attemptsOf], fun _ => ⟨fun _ => h2, fun _ => rfl⟩⟩
  · refine ⟨by simp [attemptsOf], fun _ => ⟨fun h => ?_, fun h => absurd h h2⟩⟩
    simp [attemptsOf] at h

/-- Witness for C1: a 30MB source against a 16MB target whose first
attempt produces 20MB gets exactly a second attempt. -/
theorem convergence_bound_witness :
    attemptsOf (startVideoCompression
      (VideoRequest.mk 31457280 16 120 QualityPreset.medium VideoFormat.mp4)
      20971520 16000000) = 2 := by
  have h := convergence_bound
    (VideoRequest.mk 31457280 16 120 QualityPreset.medium VideoFormat.mp4)
    20971520 16000000
  exact (h.2 (by norm_num [precheckSkips])).mpr
    (by norm_num [overTolerance, targetSizeBytes])

/-- Claim C2: the second-pass bitrate is
max(50, floor(firstPassBitrate * (targetBytes / firstOutputBytes) * 0.9));
it is never below 50, and for a 20MB first output against a 16MB target
the scale factor is exactly 0.72. -/
theorem second_pass_bitrate :
    (∀ v : ℤ, ∀ t o : ℕ,
        secondPassVideoBitrate v t o
          = max 50 ⌊(v : ℚ) * ((t : ℚ) / (o : ℚ)) * (9 / 10)⌋
        ∧ 50 ≤ secondPassVideoBitrate v t o)
    ∧ ∀ v : ℤ,
        secondPassVideoBitrate v (16 * 1024 * 1024) (20 * 1024 * 1024)
          = max 50 ⌊(v : ℚ) * (72 / 100)⌋ := by
  constructor
  · intro v t o
    exact ⟨rfl, le_max_left _ _⟩
  · intro v
    have h : ((16 * 1024 * 1024 : ℕ) : ℚ) / ((20 * 1024 * 1024 : ℕ) : ℚ) * (9 / 10)
        = 72 / 100 := by
      push_cast
      norm_num
    unfold secondPassVideoBitrate
    rw [mul_assoc, h]

/-- Claim C3: the first-pass estimate is at least 100 kbps and, for
fixed duration and target, non-increasing in the audio budget. -/
theorem estimate_floor_antitone (d : ℚ) (t : ℕ) (a a' : ℚ)
    (_hd : 0 < d) (_ht : 0 < t) (_ha : 0 ≤ a) (haa : a ≤ a') :
    100 ≤ estimate d t a ∧ estimate d t a' ≤ estimate d t a := by
  constructor
  · exact le_max_left _ _
  · exact max_le_max le_rfl (Int.floor_le_floor (sub_le_sub_left haa _))

/-- Witness for C3 at duration 120s, target 16MB, audio 128 vs 130 kbps. -/
theorem estimate_floor_antitone_witness :
    100 ≤ estimate 120 16777216 128
    ∧ estimate 120 16777216 130 ≤ estimate 120 16777216 128 :=
  estimate_floor_antitone 120 16777216 128 130
    (by norm_num) (by norm_num) (by norm_num) (by norm_num)

/-- Helper: the estimator's value on spec scenario A, computed exactly:
16777216·8/120/1000 − 128 = 1857152/1875 = 990.48…, whose floor is 990. -/
lemma estimate_value_scenarioA :
    estimate 120 (16 * 1024 * 1024) 128 = 990 := by
  unfold estimate
  rw [show ((16 * 1024 * 1024 : ℕ) : ℚ) * 8 / 120 / 1000 - 128 = 1857152 / 1875 by
    push_cast
    norm_num]
  rw [show ⌊(1857152 / 1875 : ℚ)⌋ = 990 by
    rw [Int.floor_eq_iff]
    constructor
    · norm_num
    · norm_num]
  norm_num

/-- Counterexample to C4: for duration 120s, target 16MB and audio
128 kbps the code does not compute 964 kbps. -/
theorem estimate_scenarioA_not_964 :
    estimate 120 (16 * 1024 * 1024) 128 ≠ 964 := by
  rw [estimate_value_scenarioA]
  norm_num

/-- Claim C4 (amended): for duration 120s, target 16MB and audio
128 kbps the computed first-pass video bitrate is 990 kbps
(floor(16777216·8/120/1000 − 128) = floor(990.48) = 990). -/
theorem estimate_scenarioA :
    estimate 120 (16 * 1024 * 1024) 128 = 990 :=
  estimate_value_scenarioA

/-- Claim C5: a source already at or under the target size short-circuits
to success with zero transcoding attempts and the original file as
output. -/
theorem precheck_short_circuit (r : VideoRequest) (out1 out2 : ℕ)
    (h : r.fileSize ≤ targetSizeBytes r) :
    startVideoCompression r out1 out2 = VideoOutcome.skippedSuccess r.fileSize
    ∧ attemptsOf (startVideoCompression r out1 out2) = 0 := by
  have hp : precheckSkips r := (precheckSkips_iff r).mpr h
  unfold startVideoCompression
  rw [if_pos hp]
  exact ⟨rfl, rfl⟩

/-- Witness for C5: a 10MB source against a 16MB target is returned
unchanged with zero attempts. -/
theorem precheck_short_circuit_witness :
    startVideoCompression
        (VideoRequest.mk 10485760 16 120 QualityPreset.high VideoFormat.mp4) 0 0
      = VideoOutcome.skippedSuccess 10485760
    ∧ attemptsOf (startVideoCompression
        (VideoRequest.mk 10485760 16 120 QualityPreset.high VideoFormat.mp4) 0 0) = 0 :=
  precheck_short_circuit
    (VideoRequest.mk 10485760 16 120 QualityPreset.high VideoFormat.mp4) 0 0
    (by decide)

/-! ## Claims about image option resolution -/

/-- Counterexample to C6: an unsupported mimetype with no requested
output format resolves to "jpeg" instead of failing — a silent default. -/
theorem resolve_silent_default_counterexample :
    getOutputFormat ("image/tiff") none = "jpeg"
    ∧ mimeToFormat ("image/tiff") = none := by
  exact ⟨rfl, rfl⟩

/-- Claim C6 (amended): resolution never fails.  An unknown mimetype
with no explicit format silently defaults to "jpeg"; an explicitly
requested non-empty format other than "original" is passed through
unvalidated; an unknown format in getCompressionOptions falls back to a
bare quality option set.  No InvalidConfiguration error exists. -/
theorem resolve_defaults_amended (m f : String) (q : ℕ)
    (hm : mimeToFormat m = none) (hf0 : f ≠ "") (hf1 : f ≠ "original")
    (hfmt : f ∉ (["jpeg", "png", "webp", "gif"] : List String)) :
    getOutputFormat m none = "jpeg"
    ∧ getOutputFormat m (some f) = f
    ∧ getCompressionOptions f q = CompressionOptions.defaultOpts q := by
  simp only [List.mem_cons, List.not_mem_nil, or_false, not_or] at hfmt
  refine ⟨?_, ?_, ?_⟩
  · simp only [getOutputFormat]
    rw [hm]
    rfl
  · simp only [getOutputFormat]
    rw [if_pos ⟨hf0, hf1⟩]
  · unfold getCompressionOptions
    rw [if_neg hfmt.1, if_neg hfmt.2.1, if_neg hfmt.2.2.1, if_neg hfmt.2.2.2]

/-- Witness for the amended C6 at mimetype "image/tiff" and requested
format "bmp". -/
theorem resolve_defaults_witness :
    getOutputFormat ("image/tiff") none = "jpeg"
    ∧ getOutputFormat ("image/tiff") (some ("bmp")) = "bmp"
    ∧ getCompressionOptions ("bmp") 80 = CompressionOptions.defaultOpts 80 :=
  resolve_defaults_amended ("image/tiff") ("bmp") 80
    (by decide) (by decide) (by decide) (by decide)

/-- Claim C7: for png and gif the resolved palette size is
max(16, floor(256·q/100)); it is non-decreasing in q, and at q = 50 for
png it equals 128. -/
theorem palette_size_claim (fmt : String) (q q' : ℕ)
    (hfmt : fmt = "png" ∨ fmt = "gif")
    (_h1 : 1 ≤ q) (_h100 : q ≤ 100) (hqq : q ≤ q') :
    paletteSize (getCompressionOptions fmt q) = some (max 16 (256 * q / 100))
    ∧ max 16 (256 * q / 100) ≤ max 16 (256 * q' / 100)
    ∧ paletteSize (getCompressionOptions ("png") 50) = some 128 := by
  refine ⟨?_, ?_, rfl⟩
  · rcases hfmt with h | h <;> subst h <;> rfl
  · exact max_le_max le_rfl (Nat.div_le_div_right (Nat.mul_le_mul_left 256 hqq))

/-- Witness for C7 at format png, quality 50 against quality 60. -/
theorem palette_size_witness :
    paletteSize (getCompressionOptions ("png") 50) = some (max 16 (256 * 50 / 100))
    ∧ max 16 (256 * 50 / 100) ≤ max 16 (256 * 60 / 100) := by
  have h := palette_size_claim ("png") 50 60 (Or.inl rfl)
    (by decide) (by decide) (by decide)
  exact ⟨h.1, h.2.1⟩

/-! ## Claims about desktop process termination and cancellation -/

/-- Claim C8: a termination whose error message carries the kill-signal
marker (as the message produced by the externally requested SIGKILL
does) is reported as cancelled, and a termination whose message carries
no kill marker is reported as failed with that message. -/
theorem kill_signal_cancelled (msg : String) :
    (containsSubstr msg ("SIGKILL") = true ∨ containsSubstr msg ("killed") = true →
        videoErrorResult msg = DesktopVideoResult.cancelled)
    ∧ (containsSubstr msg ("SIGKILL") = false → containsSubstr msg ("killed") = false →
        videoErrorResult msg = DesktopVideoResult.failed msg)
    ∧ videoErrorResult ("ffmpeg was killed with signal SIGKILL")
        = DesktopVideoResult.cancelled := by
  refine ⟨?_, ?_, by decide⟩
  · intro h
    unfold videoErrorResult
    rcases h with h | h <;> simp [h]
  · intro h1 h2
    unfold videoErrorResult
    simp [h1, h2]

/-- Witness for C8: the SIGKILL message is cancelled, a plain exit
message is failed. -/
theorem kill_signal_cancelled_witness :
    videoErrorResult ("ffmpeg was killed with signal SIGKILL")
      = DesktopVideoResult.cancelled
    ∧ videoErrorResult ("ffmpeg exited with code 1")
      = DesktopVideoResult.failed ("ffmpeg exited with code 1") := by
  have h := kill_signal_cancelled ("ffmpeg exited with code 1")
  exact ⟨(kill_signal_cancelled ("x")).2.2, h.2.1 (by decide) (by decide)⟩

/-- Counterexample to C9: when the end event has fired (the attempt has
internally succeeded) and cancellation is requested before the result
reaches the caller, the final resolution is Success, not Cancelled. -/
theorem cancellation_race_counterexample :
    (runProcess 100 [ProcessEvent.procEnd 60, ProcessEvent.cancelRequest]).resolved
      = some (DesktopVideoResult.success 100 60)
    ∧ (runProcess 100 [ProcessEvent.procEnd 60, ProcessEvent.cancelRequest]).resolved
      ≠ some (DesktopVideoResult.cancelled) := by
  exact ⟨rfl, by decide⟩

/-- Claim C9 (amended): cancellation requested after the attempt's
success has been honored leaves the final result Success — the handler
never re-checks cancellation state; only a cancellation delivered (as a
kill-induced error) before the success resolution yields Cancelled. -/
theorem cancellation_race_amended (orig sz : ℕ) :
    (runProcess orig [ProcessEvent.procEnd sz, ProcessEvent.cancelRequest]).resolved
      = some (DesktopVideoResult.success orig sz)
    ∧ (runProcess orig [ProcessEvent.cancelRequest,
        ProcessEvent.procError ("ffmpeg was killed with signal SIGKILL")]).resolved
      = some (DesktopVideoResult.cancelled) := by
  exact ⟨rfl, rfl⟩

/-- Claim C10: both second-pass branches lower the audio bitrate to
min(128, 96) = 96 kbps, while both first-pass branches use 128 kbps. -/
theorem second_pass_audio (ext preset : String) (vb : ℤ) (crf : ℕ) :
    (secondPassArgs VideoFormat.mp4 ext preset vb).get? 14 = some ("-b:a")
    ∧ (secondPassArgs VideoFormat.mp4 ext preset vb).get? 15 = some ("96k")
    ∧ (secondPassArgs VideoFormat.webm ext preset vb).get? 8 = some ("-b:a")
    ∧ (secondPassArgs VideoFormat.webm ext preset vb).get? 9 = some ("96k")
    ∧ (firstPassArgs VideoFormat.mp4 ext preset crf vb).get? 15 = some ("128k")
    ∧ (firstPassArgs VideoFormat.webm ext preset crf vb).get? 11 = some ("128k")
    ∧ min audioBitrate 96 = 96 := by
  exact ⟨rfl, rfl, rfl, rfl, rfl, rfl, rfl⟩

end CompressIt
